import Mathlib

/-!
Shallow embedding of the two scripts in this repository:

* `composer/cicd_sample/utils/add_dags_to_composer.py` — the DAG publisher:
  `_create_dags_list` copies a source directory into a fresh temporary
  directory, ignoring `__init__.py` and `*_test.py` (shutil.ignore_patterns /
  fnmatch semantics), then lists `{temp_dir}/*.py` with `glob.glob`;
  `upload_dags_to_composer` strips the `{temp_dir}/` fragment from each staged
  path with `str.replace` and calls `blob.upload_from_string(dag)` on the
  resulting key.

* `run/filesystem/e2e_test.py` — the deployment verifier: a
  `backoff.on_exception`-wrapped `gcloud_cli` helper, a pytest yield-fixture
  `deployed_service` that builds and later deletes a Cloud Run service, and
  `test_end_to_end` which issues two authenticated HTTP GETs and asserts on
  status codes and a strftime-formatted substring.

File names and string data are modelled as `List Char` (Python `str`);
directories as lists of (name, content) records.  The only nondeterministic
inputs — the temp-directory path from `tempfile.mkdtemp`, the outcome of each
network upload, subprocess results and HTTP responses — are passed in as
explicit parameters.
-/

/-- `startsWithSeq pat s` : the sequence `pat` is an initial run of `s`. -/
def startsWithSeq : List Char → List Char → Bool
  | [], _ => true
  | _ :: _, [] => false
  | p :: ps, c :: cs => p == c && startsWithSeq ps cs

/-- `endsWithSeq pat s` : the sequence `pat` is a final run of `s`
(Python `str.endswith`). -/
def endsWithSeq (pat s : List Char) : Bool :=
  startsWithSeq pat.reverse s.reverse

/-- `containsSeq s pat` : `pat` occurs contiguously inside `s`
(Python `pat in s`). -/
def containsSeq : List Char → List Char → Bool
  | [], pat => pat == []
  | c :: rest, pat => startsWithSeq pat (c :: rest) || containsSeq rest pat

/-- Fuel-indexed worker for Python `s.replace(old, "")`: scan left to right,
deleting each non-overlapping occurrence of `old`.  The fuel bounds the scan
(one unit per character consumed) so the recursion is structural. -/
def replaceAllAux (pat : List Char) : Nat → List Char → List Char
  | _, [] => []
  | 0, s => s
  | fuel + 1, c :: rest =>
    if pat ≠ [] && startsWithSeq pat (c :: rest) then
      replaceAllAux pat fuel ((c :: rest).drop pat.length)
    else
      c :: replaceAllAux pat fuel rest

/-- Python `s.replace(pat, "")` restricted to the empty replacement, the only
form the publisher uses (`dag.replace(f"{temp_dir}/", "")`). -/
def pyReplace (s pat : List Char) : List Char :=
  replaceAllAux pat s.length s

/-- A source file: a name (direct child of the DAGs directory) and its
on-disk content. -/
structure SrcFile where
  name : List Char
  content : List Char
deriving DecidableEq, Repr

/-- `shutil.ignore_patterns("__init__.py", "*_test.py")` applied to one file
name: fnmatch of the literal pattern, or of the star pattern, which on a
POSIX platform means an exact match or the suffix `_test.py`. -/
def matchesIgnorePatterns (name : List Char) : Bool :=
  name == "__init__.py".toList || endsWithSeq "_test.py".toList name

/-- `glob.glob(f"{temp_dir}/*.py")` applied to one file name: the name ends
in `.py`, and `*` does not match a leading dot (hidden files are skipped). -/
def globMatchesPy (name : List Char) : Bool :=
  endsWithSeq ".py".toList name &&
    (match name with
     | [] => false
     | c :: _ => !(c == '.'))

/-- Result of `_create_dags_list`: the temp directory path and the list of
staged file paths. -/
structure DagsList where
  temp_dir : List Char
  dags : List (List Char)
deriving DecidableEq, Repr

/-- `_create_dags_list(dags_directory)`: copy every file of the source
directory into the fresh temp directory except those matching the ignore
patterns, then list the `*.py` direct children as full paths
`{temp_dir}/{name}`.  The temp-directory path chosen by `tempfile.mkdtemp`
is an explicit parameter. -/
def _create_dags_list (temp_dir : List Char) (dags_directory : List SrcFile) :
    DagsList :=
  let copied := dags_directory.filter (fun f => !matchesIgnorePatterns f.name)
  let dags := (copied.filter (fun f => globMatchesPy f.name)).map
    (fun f => temp_dir ++ '/' :: f.name)
  ⟨temp_dir, dags⟩

/-- One `blob.upload_from_string` call: destination bucket, object key
(`bucket.blob(dag)`) and uploaded content (the string argument). -/
structure Upload where
  bucket : List Char
  key : List Char
  content : List Char
deriving DecidableEq, Repr

/-- The upload loop of `upload_dags_to_composer`, one iteration per staged
path.  `ok i` tells whether the `i`-th `upload_from_string` call succeeds;
an exception aborts the loop at once (nothing is caught), so the function
returns the uploads actually performed and whether an exception escaped. -/
def uploadLoop (bucket_name temp_dir : List Char) (ok : Nat → Bool) :
    Nat → List (List Char) → List Upload × Bool
  | _, [] => ([], false)
  | i, dag :: rest =>
    let key := pyReplace dag (temp_dir ++ ['/'])
    if ok i then
      let r := uploadLoop bucket_name temp_dir ok (i + 1) rest
      (⟨bucket_name, key, key⟩ :: r.1, r.2)
    else
      ([], true)

/-- `upload_dags_to_composer(dags_directory, bucket_name)`: stage the files,
then for each staged path strip the `{temp_dir}/` fragment with
`str.replace` and upload that key string as the blob content. -/
def upload_dags_to_composer (temp_dir : List Char) (dags_directory : List SrcFile)
    (bucket_name : List Char) (ok : Nat → Bool) : List Upload × Bool :=
  let r := _create_dags_list temp_dir dags_directory
  uploadLoop bucket_name r.temp_dir ok 0 r.dags

/-- Every upload succeeding: the failure-free run of the loop. -/
def allOk : Nat → Bool := fun _ => true

/-- A sample source directory used to instantiate the general theorems:
one plain DAG file, the two ignored names, and a non-Python file. -/
def sampleDir : List SrcFile :=
  [⟨"a.py".toList, "c1".toList⟩, ⟨"__init__.py".toList, "c2".toList⟩,
   ⟨"b_test.py".toList, "c3".toList⟩, ⟨"readme.md".toList, "c4".toList⟩]

/-- A sample `tempfile.mkdtemp` result. -/
def sampleTemp : List Char := "/tmp/s".toList

/-- A sample bucket name. -/
def sampleBucket : List Char := "bkt".toList

/-- A sample source directory with two DAG files, for the partial-failure
scenario. -/
def sampleDir2 : List SrcFile :=
  [⟨"a.py".toList, "c1".toList⟩, ⟨"b.py".toList, "c2".toList⟩]

/-! ### run/filesystem/e2e_test.py -/

/-- Names bound at module level in `e2e_test.py`: the import statements
(`import backoff`, `import datetime`, `import os`, `import subprocess`,
`from urllib import request`, `import uuid`, `import pytest`) and the
module-level assignments.  `json` is NOT among them: no `import json`
statement appears in the file. -/
def moduleGlobalNames : List String :=
  ["backoff", "datetime", "os", "subprocess", "request", "uuid", "pytest",
   "SUFFIX", "PROJECT", "gcloud_cli", "deployed_service",
   "service_url_auth_token", "test_end_to_end"]

/-- Result of one `subprocess.run(..., capture_output=True, check=True)`
invocation: either exit code 0 with the captured streams, or a nonzero exit
code, in which case `check=True` raises `CalledProcessError`. -/
inductive ProcResult where
  | ok (stdout stderr : List Char)
  | err (stdout stderr : List Char)
deriving DecidableEq, Repr

/-- An exception escaping one `gcloud_cli` attempt. -/
inductive GcloudErr where
  /-- `subprocess.CalledProcessError`, carrying the captured stderr. -/
  | calledProcessError (stderr : List Char)
  /-- `raise Exception(output.stderr)` at the end of the function body. -/
  | exceptionStderr (stderr : List Char)
deriving DecidableEq, Repr

/-- One attempt of the body of `gcloud_cli` (inside the backoff decorator).
`jsonLoads` gives the semantics of `json.loads` on the captured stdout
(`none` = raises); the name `json` must first resolve against the module's
global names, and a failed lookup raises `NameError`, which the bare
`except Exception` clause also catches.  Either way the `except` path ends
in `raise Exception(output.stderr)`. -/
def gcloud_cli_attempt {α : Type} (jsonLoads : List Char → Option α)
    (r : ProcResult) : Except GcloudErr α :=
  match r with
  | .err _ stderr => .error (.calledProcessError stderr)
  | .ok stdout stderr =>
    let entries : Option α :=
      if moduleGlobalNames.contains "json" then jsonLoads stdout else none
    match entries with
    | some v => .ok v
    | none => .error (.exceptionStderr stderr)

/-- `@backoff.on_exception(backoff.expo, Exception, max_tries=3)`: run the
body once per available attempt, returning the first non-raising result;
when every attempt raises, the last attempt's exception propagates.
`attempts` lists the subprocess result of each successive invocation
(`max_tries = 3` bounds its length at the call site). -/
def backoffOnException {α : Type} (body : ProcResult → Except GcloudErr α) :
    List ProcResult → Except GcloudErr α
  | [] => .error (.exceptionStderr [])
  | [r] => body r
  | r :: r2 :: rest =>
    match body r with
    | .ok v => .ok v
    | .error _ => backoffOnException body (r2 :: rest)

/-- The decorated `gcloud_cli(command)`: the backoff wrapper around the
body, for a given sequence of subprocess outcomes. -/
def gcloud_cli {α : Type} (jsonLoads : List Char → Option α)
    (attempts : List ProcResult) : Except GcloudErr α :=
  backoffOnException (gcloud_cli_attempt jsonLoads) attempts

/-- Externally visible gcloud invocations of the deployment lifecycle. -/
inductive CloudEvent where
  /-- `gcloud builds submit --config cloudbuild.yaml ...` for the service. -/
  | buildSubmit (service_name : String)
  /-- `gcloud run services delete <name> ... --async ...`. -/
  | servicesDelete (service_name : String)
deriving DecidableEq, Repr

/-- A pytest yield-fixture: the events of the setup code before `yield`,
the yielded value, and the events of the finalizer after `yield`. -/
structure YieldFixture (α : Type) where
  setup : List CloudEvent
  value : α
  teardown : List CloudEvent

/-- The `deployed_service` fixture: build+deploy a service named
`filesystem-{SUFFIX}`, yield its name, and on finalization delete it. -/
def deployed_service (suffix : String) : YieldFixture String :=
  let service_name := "filesystem-" ++ suffix
  { setup := [.buildSubmit service_name]
  , value := service_name
  , teardown := [.servicesDelete service_name] }

/-- Pytest semantics of running a test against a yield-fixture: the setup
code runs, the test body runs to a pass/fail verdict, and the finalizer
after `yield` runs regardless of that verdict (teardown executes on both
exit paths of the test body). -/
def runTestWithFixture {α : Type} (fx : YieldFixture α)
    (body : α → List CloudEvent × Bool) : List CloudEvent × Bool :=
  let r := body fx.value
  (fx.setup ++ r.1 ++ fx.teardown, r.2)

/-- An HTTP response as seen through `urllib.request.urlopen`. -/
structure HttpResponse where
  status : Nat
  body : List Char
deriving DecidableEq, Repr

/-- One `urllib.request.Request`: target URL and header list. -/
structure HttpRequest where
  url : List Char
  headers : List (List Char × List Char)
deriving DecidableEq, Repr

/-- Python's `datetime.datetime.utcnow()` value as the fields the format
string reads: abbreviated weekday and month names (`%a`, `%b`) and the
numeric day and hour (`%d`, `%H`). -/
structure PyDatetime where
  weekday : Nat
  month : Nat
  day : Nat
  hour : Nat
deriving DecidableEq, Repr

/-- `%a` abbreviations, indexed as `datetime.weekday()` (Monday = 0). -/
def weekdayAbbrev (w : Nat) : List Char :=
  (["Mon", "Tue", "Wed", "Thu", "Fri", "Sat", "Sun"].getD w "Mon").toList

/-- `%b` abbreviations, indexed by month number starting at 1. -/
def monthAbbrev (m : Nat) : List Char :=
  (["Jan", "Feb", "Mar", "Apr", "May", "Jun", "Jul", "Aug", "Sep", "Oct",
    "Nov", "Dec"].getD (m - 1) "Jan").toList

/-- Zero-padded two-digit rendering used by `%d` and `%H`. -/
def pad2 (n : Nat) : List Char :=
  if n < 10 then '0' :: (Nat.repr n).toList else (Nat.repr n).toList

/-- The date token the test expects in the mounted-path body:
the dash-joined weekday, month, day and hour of the current UTC time. -/
def dateToken (dt : PyDatetime) : List Char :=
  weekdayAbbrev dt.weekday ++ '-' :: monthAbbrev dt.month ++
    '-' :: pad2 dt.day ++ '-' :: pad2 dt.hour

/-- `test_end_to_end`: GET the service root with a bearer token and assert
status 200; GET `{service_url}/mnt/nfs/filestore` with the same header and
assert status 200; assert the formatted date token occurs in that body.
A failed assert aborts the remaining statements (pytest reports a failure),
so the function returns the requests actually issued plus the verdict.
`http` maps each URL to the response `urlopen` produces for it. -/
def test_end_to_end (http : List Char → HttpResponse)
    (service_url auth_token : List Char) (dt : PyDatetime) :
    List HttpRequest × Bool :=
  let headers := [("Authorization".toList, "Bearer ".toList ++ auth_token)]
  let req1 : HttpRequest := ⟨service_url, headers⟩
  let response1 := http service_url
  if response1.status == 200 then
    let mnt_url := service_url ++ "/mnt/nfs/filestore".toList
    let req2 : HttpRequest := ⟨mnt_url, headers⟩
    let response2 := http mnt_url
    if response2.status == 200 then
      ([req1, req2], containsSeq response2.body (dateToken dt))
    else
      ([req1, req2], false)
  else
    ([req1], false)

/-- A sample response environment: status 200 everywhere, and a body that
contains the expected date token on every URL other than the root. -/
def sampleHttp : List Char → HttpResponse :=
  fun u => if u == "u".toList then ⟨200, []⟩
           else ⟨200, "x Mon-Jan-03-07 y".toList⟩

/-! ### Lemmas about the character-sequence operations -/

theorem startsWithSeq_append (l t : List Char) :
    startsWithSeq l (l ++ t) = true := by
  induction l with
  | nil => rfl
  | cons p ps ih => simp [startsWithSeq, ih]

theorem mem_of_startsWithSeq {pat s : List Char} {a : Char}
    (h : startsWithSeq pat s = true) (ha : a ∈ pat) : a ∈ s := by
  induction pat generalizing s with
  | nil => cases ha
  | cons p ps ih =>
    cases s with
    | nil => simp [startsWithSeq] at h
    | cons c cs =>
      simp only [startsWithSeq, Bool.and_eq_true, beq_iff_eq] at h
      rcases List.mem_cons.mp ha with rfl | ha2
      · exact h.1 ▸ List.mem_cons_self _ _
      · exact List.mem_cons_of_mem _ (ih h.2 ha2)

theorem replaceAllAux_of_not_mem {pat s : List Char} {a : Char}
    (ha : a ∈ pat) (hs : a ∉ s) (fuel : Nat) :
    replaceAllAux pat fuel s = s := by
  induction s generalizing fuel with
  | nil => cases fuel <;> rfl
  | cons c rest ih =>
    cases fuel with
    | zero => rfl
    | succ f =>
      have hsw : startsWithSeq pat (c :: rest) = false := by
        by_contra hne
        exact hs (mem_of_startsWithSeq (Bool.of_not_eq_false hne) ha)
      have hrest : a ∉ rest := fun h => hs (List.mem_cons_of_mem _ h)
      simp [replaceAllAux, hsw, ih hrest]

theorem pyReplace_append {pat s : List Char} {a : Char}
    (ha : a ∈ pat) (hs : a ∉ s) :
    pyReplace (pat ++ s) pat = s := by
  cases pat with
  | nil => cases ha
  | cons p ps =>
    show replaceAllAux (p :: ps) (p :: (ps ++ s)).length (p :: (ps ++ s)) = s
    have hlen : (p :: (ps ++ s)).length = (ps.length + s.length) + 1 := by
      simp [List.length_append]
    rw [hlen]
    have hsw : startsWithSeq (p :: ps) ((p :: ps) ++ s) = true :=
      startsWithSeq_append (p :: ps) s
    simp only [List.cons_append] at hsw
    simp only [replaceAllAux, hsw, Bool.and_true, ne_eq, reduceCtorEq,
      not_false_eq_true, decide_True, if_true]
    have hdrop : (p :: (ps ++ s)).drop (p :: ps).length = s := by
      have h0 := List.drop_left (p :: ps) s
      simp only [List.cons_append] at h0
      exact h0
    rw [hdrop]
    exact replaceAllAux_of_not_mem ha hs _

theorem containsSeq_eq_false {pat s : List Char} {a : Char}
    (ha : a ∈ pat) (hs : a ∉ s) : containsSeq s pat = false := by
  induction s with
  | nil =>
    cases pat with
    | nil => cases ha
    | cons p ps => rfl
  | cons c rest ih =>
    have hsw : startsWithSeq pat (c :: rest) = false := by
      by_contra hne
      exact hs (mem_of_startsWithSeq (Bool.of_not_eq_false hne) ha)
    have hrest : a ∉ rest := fun h => hs (List.mem_cons_of_mem _ h)
    simp [containsSeq, hsw, ih hrest]

/-- The slash belongs to the `{temp_dir}/` pattern. -/
theorem slash_mem_pattern (temp_dir : List Char) : '/' ∈ temp_dir ++ ['/'] :=
  List.mem_append_right _ (List.mem_singleton.mpr rfl)

/-- Stripping the `{temp_dir}/` fragment from a staged path recovers the
file name, provided the name contains no slash. -/
theorem pyReplace_staged_path (temp_dir name : List Char)
    (h : '/' ∉ name) :
    pyReplace (temp_dir ++ '/' :: name) (temp_dir ++ ['/']) = name := by
  have hconcat : temp_dir ++ '/' :: name = (temp_dir ++ ['/']) ++ name := by
    simp
  rw [hconcat]
  exact pyReplace_append (slash_mem_pattern temp_dir) h

/-! ### Lemmas about the upload loop -/

/-- On a failure-free run the loop performs one upload per staged path, in
order, with key and content both equal to the stripped path. -/
theorem uploadLoop_allOk (bucket_name temp_dir : List Char)
    (dags : List (List Char)) (i : Nat) :
    uploadLoop bucket_name temp_dir allOk i dags
      = (dags.map (fun d =>
          ⟨bucket_name, pyReplace d (temp_dir ++ ['/']),
            pyReplace d (temp_dir ++ ['/'])⟩), false) := by
  induction dags generalizing i with
  | nil => rfl
  | cons d rest ih => simp [uploadLoop, allOk, ih (i + 1)]

/-- Whatever the failure pattern, every upload actually performed goes to
the given bucket and carries its own key string as content. -/
theorem uploadLoop_mem (bucket_name temp_dir : List Char) (ok : Nat → Bool)
    (dags : List (List Char)) :
    ∀ (i : Nat) (u : Upload), u ∈ (uploadLoop bucket_name temp_dir ok i dags).1 →
      u.bucket = bucket_name ∧ u.content = u.key := by
  induction dags with
  | nil => intro i u hu; simp [uploadLoop] at hu
  | cons d rest ih =>
    intro i u hu
    by_cases h : ok i
    · simp only [uploadLoop, h, if_true, List.mem_cons] at hu
      rcases hu with rfl | hu2
      · exact ⟨rfl, rfl⟩
      · exact ih (i + 1) u hu2
    · simp [uploadLoop, h] at hu

/-- When the first `k` uploads succeed and the `k`-th call raises, the loop
stops having performed exactly the first `k` uploads of the failure-free
run, and the exception escapes. -/
theorem uploadLoop_first_failure (bucket_name temp_dir : List Char)
    (ok : Nat → Bool) (dags : List (List Char)) :
    ∀ (i k : Nat), (∀ j, j < k → ok (i + j) = true) → ok (i + k) = false →
      k < dags.length →
      uploadLoop bucket_name temp_dir ok i dags
        = ((uploadLoop bucket_name temp_dir allOk i dags).1.take k, true) := by
  induction dags with
  | nil =>
    intro i k _ _ h3
    exact absurd h3 (by simp)
  | cons d rest ih =>
    intro i k h1 h2 h3
    cases k with
    | zero =>
      have hi : ok i = false := by simpa using h2
      simp [uploadLoop, hi]
    | succ k' =>
      have hi : ok i = true := by simpa using h1 0 (Nat.succ_pos k')
      have h1' : ∀ j, j < k' → ok ((i + 1) + j) = true := by
        intro j hj
        have he : (i + 1) + j = i + (j + 1) := by omega
        rw [he]
        exact h1 (j + 1) (by omega)
      have h2' : ok ((i + 1) + k') = false := by
        have he : (i + 1) + k' = i + (k' + 1) := by omega
        rw [he]
        exact h2
      have h3' : k' < rest.length := by simpa using h3
      simp [uploadLoop, hi, allOk, ih (i + 1) k' h1' h2' h3']

/-! ### Lemmas about the gcloud helper -/

/-- The name `json` never resolves: no `import json` appears in the file. -/
theorem json_not_imported : moduleGlobalNames.contains "json" = false := by
  decide

/-- Every single attempt of the `gcloud_cli` body raises: a nonzero exit
raises `CalledProcessError`, and on exit 0 the `json.loads` line raises
`NameError`, whose handler ends in `raise Exception(output.stderr)`. -/
theorem gcloud_cli_attempt_errors {α : Type} (jsonLoads : List Char → Option α)
    (r : ProcResult) : ∃ e, gcloud_cli_attempt jsonLoads r = .error e := by
  cases r with
  | err stdout stderr => exact ⟨_, rfl⟩
  | ok stdout stderr =>
    refine ⟨.exceptionStderr stderr, ?_⟩
    have hj : "json" ∉ moduleGlobalNames := by decide
    simp [gcloud_cli_attempt, hj]

/-- When every attempt of a backoff-wrapped body raises, the wrapper runs
all attempts and the last attempt's outcome is what the caller sees. -/
theorem backoffOnException_all_error {α : Type}
    (body : ProcResult → Except GcloudErr α)
    (h : ∀ r, ∃ e, body r = .error e) :
    ∀ (attempts : List ProcResult) (hne : attempts ≠ []),
      backoffOnException body attempts = body (attempts.getLast hne) := by
  intro attempts
  induction attempts with
  | nil => intro hne; exact absurd rfl hne
  | cons r rest ih =>
    intro hne
    cases rest with
    | nil => rfl
    | cons r2 rest2 =>
      obtain ⟨e, he⟩ := h r
      have hne2 : r2 :: rest2 ≠ [] := by simp
      calc backoffOnException body (r :: r2 :: rest2)
          = backoffOnException body (r2 :: rest2) := by
            simp [backoffOnException, he]
        _ = body ((r2 :: rest2).getLast hne2) := ih hne2
        _ = body ((r :: r2 :: rest2).getLast hne) := by
            rw [List.getLast_cons hne2]

/-! ### The claims -/

/-- C1: for every file path returned by `_create_dags_list`, the publisher
performs one `upload_from_string` call to the named bucket whose object key
is the stripped path and whose uploaded content is that key string itself —
the bytes of the file on disk are never read.  Moreover, under any failure
pattern, every upload actually performed targets the named bucket and
carries its key string as its content. -/
theorem publish_uploads_key_string_as_content
    (temp_dir : List Char) (dags_directory : List SrcFile)
    (bucket_name : List Char) (ok : Nat → Bool) (u : Upload)
    (hu : u ∈ (upload_dags_to_composer temp_dir dags_directory bucket_name ok).1) :
    u.bucket = bucket_name ∧ u.content = u.key ∧
    (upload_dags_to_composer temp_dir dags_directory bucket_name allOk).1
      = (_create_dags_list temp_dir dags_directory).dags.map
          (fun d => ⟨bucket_name, pyReplace d (temp_dir ++ ['/']),
            pyReplace d (temp_dir ++ ['/'])⟩) := by
  have hm := uploadLoop_mem bucket_name temp_dir ok
    (_create_dags_list temp_dir dags_directory).dags 0 u hu
  refine ⟨hm.1, hm.2, ?_⟩
  show (uploadLoop bucket_name temp_dir allOk 0
      (_create_dags_list temp_dir dags_directory).dags).1 = _
  rw [uploadLoop_allOk]

theorem publish_uploads_key_string_as_content_witness :
    (⟨sampleBucket, "a.py".toList, "a.py".toList⟩ : Upload)
        ∈ (upload_dags_to_composer sampleTemp sampleDir sampleBucket allOk).1
    ∧ ((⟨sampleBucket, "a.py".toList, "a.py".toList⟩ : Upload).bucket = sampleBucket
      ∧ (⟨sampleBucket, "a.py".toList, "a.py".toList⟩ : Upload).content
          = (⟨sampleBucket, "a.py".toList, "a.py".toList⟩ : Upload).key
      ∧ (upload_dags_to_composer sampleTemp sampleDir sampleBucket allOk).1
        = (_create_dags_list sampleTemp sampleDir).dags.map
            (fun d => ⟨sampleBucket, pyReplace d (sampleTemp ++ ['/']),
              pyReplace d (sampleTemp ++ ['/'])⟩)) :=
  ⟨by decide,
   publish_uploads_key_string_as_content sampleTemp sampleDir sampleBucket allOk
     ⟨sampleBucket, "a.py".toList, "a.py".toList⟩ (by decide)⟩

/-- C2: for a source directory of slash-free file names, the uploaded keys
are exactly (1:1, in order) the names of the files that survived the
exclusion filter and the `*.py` listing; no uploaded key matches an ignore
pattern, and every staged path comes from a surviving source file. -/
theorem no_ignored_file_staged_or_uploaded
    (temp_dir : List Char) (dags_directory : List SrcFile)
    (bucket_name : List Char)
    (hnames : ∀ f ∈ dags_directory, '/' ∉ f.name) :
    ((upload_dags_to_composer temp_dir dags_directory bucket_name allOk).1.map
        (fun u => u.key)
      = ((dags_directory.filter (fun f => !matchesIgnorePatterns f.name)).filter
          (fun f => globMatchesPy f.name)).map (fun f => f.name))
    ∧ (∀ u ∈ (upload_dags_to_composer temp_dir dags_directory bucket_name allOk).1,
        matchesIgnorePatterns u.key = false)
    ∧ (∀ p ∈ (_create_dags_list temp_dir dags_directory).dags,
        ∃ f, f ∈ dags_directory ∧ matchesIgnorePatterns f.name = false
          ∧ p = temp_dir ++ '/' :: f.name) := by
  have hsub : ∀ f ∈ (dags_directory.filter
      (fun f => !matchesIgnorePatterns f.name)).filter
      (fun f => globMatchesPy f.name), f ∈ dags_directory := by
    intro f hf
    exact List.mem_of_mem_filter (List.mem_of_mem_filter hf)
  have hkeys :
      (upload_dags_to_composer temp_dir dags_directory bucket_name allOk).1.map
          (fun u => u.key)
        = ((dags_directory.filter (fun f => !matchesIgnorePatterns f.name)).filter
            (fun f => globMatchesPy f.name)).map (fun f => f.name) := by
    show (uploadLoop bucket_name temp_dir allOk 0
        (_create_dags_list temp_dir dags_directory).dags).1.map (fun u => u.key)
      = _
    rw [uploadLoop_allOk]
    simp only [_create_dags_list, List.map_map]
    exact List.map_congr_left (fun f hf => by
      simp only [Function.comp]
      exact pyReplace_staged_path temp_dir f.name (hnames f (hsub f hf)))
  refine ⟨hkeys, ?_, ?_⟩
  · intro u hu
    have hk : u.key ∈ ((dags_directory.filter
        (fun f => !matchesIgnorePatterns f.name)).filter
        (fun f => globMatchesPy f.name)).map (fun f => f.name) := by
      rw [← hkeys]
      exact List.mem_map_of_mem (fun u => u.key) hu
    obtain ⟨f, hf, hfk⟩ := List.mem_map.mp hk
    have hign : (!matchesIgnorePatterns f.name) = true :=
      (List.mem_filter.mp (List.mem_of_mem_filter hf)).2
    rw [← hfk]
    exact Bool.not_eq_true' .. |>.mp hign
  · intro p hp
    simp only [_create_dags_list, List.mem_map] at hp
    obtain ⟨f, hf, hfp⟩ := hp
    have hf2 := List.mem_of_mem_filter hf
    have hign : (!matchesIgnorePatterns f.name) = true :=
      (List.mem_filter.mp hf2).2
    exact ⟨f, List.mem_of_mem_filter hf2, Bool.not_eq_true' .. |>.mp hign,
      hfp.symm⟩

theorem no_ignored_file_staged_or_uploaded_witness :
    (∀ f ∈ sampleDir, '/' ∉ SrcFile.name f)
    ∧ (((upload_dags_to_composer sampleTemp sampleDir sampleBucket allOk).1.map
          (fun u => u.key)
        = ((sampleDir.filter (fun f => !matchesIgnorePatterns f.name)).filter
            (fun f => globMatchesPy f.name)).map (fun f => f.name))
      ∧ (∀ u ∈ (upload_dags_to_composer sampleTemp sampleDir sampleBucket allOk).1,
          matchesIgnorePatterns u.key = false)
      ∧ (∀ p ∈ (_create_dags_list sampleTemp sampleDir).dags,
          ∃ f, f ∈ sampleDir ∧ matchesIgnorePatterns f.name = false
            ∧ p = sampleTemp ++ '/' :: f.name)) :=
  ⟨by decide,
   no_ignored_file_staged_or_uploaded sampleTemp sampleDir sampleBucket
     (by decide)⟩

/-- C3: evaluating `gcloud_cli` where the CLI fails twice and succeeds on
the third attempt (with parseable JSON on stdout): the wrapper does NOT
return the parsed result — because the module never imports `json`, the
`json.loads` line raises `NameError` and the helper raises
`Exception(output.stderr)` instead.  When all three attempts fail, the
last `CalledProcessError`, carrying that attempt's stderr, propagates —
that half of the claim matches the code. -/
theorem gcloud_cli_raises_even_after_success :
    (gcloud_cli (fun s => some s)
        [ProcResult.err [] "e1".toList, ProcResult.err [] "e2".toList,
         ProcResult.ok "[]".toList "e3".toList]
      = Except.error (GcloudErr.exceptionStderr "e3".toList))
    ∧ (∀ v : List Char, gcloud_cli (fun s => some s)
        [ProcResult.err [] "e1".toList, ProcResult.err [] "e2".toList,
         ProcResult.ok "[]".toList "e3".toList] ≠ Except.ok v)
    ∧ (gcloud_cli (fun s => some s)
        [ProcResult.err [] "e1".toList, ProcResult.err [] "e2".toList,
         ProcResult.err [] "e3".toList]
      = Except.error (GcloudErr.calledProcessError "e3".toList)) := by
  refine ⟨rfl, ?_, rfl⟩
  intro v h
  exact Except.noConfusion h

/-- C4 counterexample: a directory holding the single file `readme.md` has
N = 1 files of which M = 0 match an exclusion pattern, yet the staged list
is empty, not of length N − M = 1: the `*.py` listing also drops non-Python
files the exclusion patterns never matched. -/
theorem staged_count_not_N_minus_M :
    ¬ ((_create_dags_list sampleTemp [⟨"readme.md".toList, "c4".toList⟩]).dags.length
        = ([⟨"readme.md".toList, "c4".toList⟩] : List SrcFile).length
          - (([⟨"readme.md".toList, "c4".toList⟩] : List SrcFile).filter
              (fun f => matchesIgnorePatterns f.name)).length) := by decide

/-- C4 amended: for every source directory all of whose files are non-hidden
Python files (name ends in `.py` and does not start with a dot), if the
directory holds N files of which M match an exclusion pattern, the staged
file list holds exactly N − M files. -/
theorem staged_count_eq_sub_when_all_py
    (temp_dir : List Char) (dags_directory : List SrcFile)
    (hpy : ∀ f ∈ dags_directory, globMatchesPy f.name = true) :
    (_create_dags_list temp_dir dags_directory).dags.length
      = dags_directory.length
        - (dags_directory.filter (fun f => matchesIgnorePatterns f.name)).length := by
  have hglob : (dags_directory.filter
      (fun f => !matchesIgnorePatterns f.name)).filter
      (fun f => globMatchesPy f.name)
      = dags_directory.filter (fun f => !matchesIgnorePatterns f.name) :=
    List.filter_eq_self.mpr (fun f hf => hpy f (List.mem_of_mem_filter hf))
  have hsplit := List.length_eq_length_filter_add
    (l := dags_directory) (fun f => matchesIgnorePatterns f.name)
  simp only [_create_dags_list, List.length_map, hglob]
  omega

theorem staged_count_eq_sub_when_all_py_witness :
    (∀ f ∈ [(⟨"a.py".toList, "c1".toList⟩ : SrcFile),
        ⟨"b_test.py".toList, "c3".toList⟩], globMatchesPy f.name = true)
    ∧ (_create_dags_list sampleTemp
        [(⟨"a.py".toList, "c1".toList⟩ : SrcFile),
         ⟨"b_test.py".toList, "c3".toList⟩]).dags.length
      = ([(⟨"a.py".toList, "c1".toList⟩ : SrcFile),
          ⟨"b_test.py".toList, "c3".toList⟩] : List SrcFile).length
        - (([(⟨"a.py".toList, "c1".toList⟩ : SrcFile),
             ⟨"b_test.py".toList, "c3".toList⟩] : List SrcFile).filter
            (fun f => matchesIgnorePatterns f.name)).length :=
  ⟨by decide,
   staged_count_eq_sub_when_all_py sampleTemp
     [⟨"a.py".toList, "c1".toList⟩, ⟨"b_test.py".toList, "c3".toList⟩]
     (by decide)⟩

/-- C5: for a source directory of slash-free file names, every path in the
staged list comes from a source file, and the object key the publish step
computes for it — `str.replace` of the `{temp_dir}/` fragment by the empty
string — equals that file's name, i.e. its path relative to the source
directory, and no `{temp_dir}/` fragment survives anywhere in the key. -/
theorem staged_key_eq_relative_name
    (temp_dir : List Char) (dags_directory : List SrcFile)
    (hnames : ∀ f ∈ dags_directory, '/' ∉ f.name) :
    ∀ p ∈ (_create_dags_list temp_dir dags_directory).dags,
      ∃ f, f ∈ dags_directory ∧ p = temp_dir ++ '/' :: f.name
        ∧ pyReplace p (temp_dir ++ ['/']) = f.name
        ∧ containsSeq (pyReplace p (temp_dir ++ ['/'])) (temp_dir ++ ['/'])
            = false := by
  intro p hp
  simp only [_create_dags_list, List.mem_map] at hp
  obtain ⟨f, hf, hfp⟩ := hp
  have hfdir : f ∈ dags_directory :=
    List.mem_of_mem_filter (List.mem_of_mem_filter hf)
  have hslash : '/' ∉ f.name := hnames f hfdir
  have hkey : pyReplace p (temp_dir ++ ['/']) = f.name := by
    rw [← hfp]
    exact pyReplace_staged_path temp_dir f.name hslash
  refine ⟨f, hfdir, hfp.symm, hkey, ?_⟩
  rw [hkey]
  exact containsSeq_eq_false (slash_mem_pattern temp_dir) hslash

theorem staged_key_eq_relative_name_witness :
    (∀ f ∈ sampleDir, '/' ∉ SrcFile.name f)
    ∧ (∀ p ∈ (_create_dags_list sampleTemp sampleDir).dags,
        ∃ f, f ∈ sampleDir ∧ p = sampleTemp ++ '/' :: f.name
          ∧ pyReplace p (sampleTemp ++ ['/']) = f.name
          ∧ containsSeq (pyReplace p (sampleTemp ++ ['/']))
              (sampleTemp ++ ['/']) = false) :=
  ⟨by decide, staged_key_eq_relative_name sampleTemp sampleDir (by decide)⟩

/-- C6: for the source directory holding exactly `a.py`, `__init__.py` and
`b_test.py` (any contents, any temp directory, any bucket), the selection
step stages exactly `a.py` and the failure-free publish run uploads exactly
one object, whose key is `a.py`. -/
theorem scenario_three_files_stages_only_a_py
    (temp_dir bucket_name c1 c2 c3 : List Char) :
    (_create_dags_list temp_dir
        [⟨"a.py".toList, c1⟩, ⟨"__init__.py".toList, c2⟩,
         ⟨"b_test.py".toList, c3⟩]).dags
      = [temp_dir ++ '/' :: "a.py".toList]
    ∧ (upload_dags_to_composer temp_dir
        [⟨"a.py".toList, c1⟩, ⟨"__init__.py".toList, c2⟩,
         ⟨"b_test.py".toList, c3⟩] bucket_name allOk).1
      = [⟨bucket_name, "a.py".toList, "a.py".toList⟩] := by
  have h1 : matchesIgnorePatterns ['a', '.', 'p', 'y'] = false := by decide
  have h2 : matchesIgnorePatterns
    ['_', '_', 'i', 'n', 'i', 't', '_', '_', '.', 'p', 'y'] = true := by decide
  have h3 : matchesIgnorePatterns
    ['b', '_', 't', 'e', 's', 't', '.', 'p', 'y'] = true := by decide
  have h4 : globMatchesPy ['a', '.', 'p', 'y'] = true := by decide
  have hdags : (_create_dags_list temp_dir
      [⟨"a.py".toList, c1⟩, ⟨"__init__.py".toList, c2⟩,
       ⟨"b_test.py".toList, c3⟩]).dags
      = [temp_dir ++ '/' :: "a.py".toList] := by
    simp [_create_dags_list, List.filter, h1, h2, h3, h4]
  refine ⟨hdags, ?_⟩
  show (uploadLoop bucket_name temp_dir allOk 0
      (_create_dags_list temp_dir
        [⟨"a.py".toList, c1⟩, ⟨"__init__.py".toList, c2⟩,
         ⟨"b_test.py".toList, c3⟩]).dags).1 = _
  rw [uploadLoop_allOk, hdags]
  simp [pyReplace_staged_path temp_dir ['a', '.', 'p', 'y'] (by decide)]

/-- C7: the `deployed_service` fixture's finalizer — the asynchronous
`gcloud run services delete` — runs on every exit path of the test body:
the event trace always starts with the build, embeds the body's events
whatever its verdict, and always ends with the delete of the same uniquely
suffixed service. -/
theorem teardown_runs_on_every_exit_path
    (suffix : String) (body : String → List CloudEvent × Bool) :
    (runTestWithFixture (deployed_service suffix) body).1
      = CloudEvent.buildSubmit ("filesystem-" ++ suffix)
          :: ((body ("filesystem-" ++ suffix)).1
            ++ [CloudEvent.servicesDelete ("filesystem-" ++ suffix)])
    ∧ CloudEvent.servicesDelete ("filesystem-" ++ suffix)
        ∈ (runTestWithFixture (deployed_service suffix) body).1
    ∧ (runTestWithFixture (deployed_service suffix) body).2
        = (body ("filesystem-" ++ suffix)).2 := by
  refine ⟨rfl, ?_, rfl⟩
  show CloudEvent.servicesDelete ("filesystem-" ++ suffix)
    ∈ [CloudEvent.buildSubmit ("filesystem-" ++ suffix)]
      ++ (body ("filesystem-" ++ suffix)).1
      ++ [CloudEvent.servicesDelete ("filesystem-" ++ suffix)]
  simp

/-- C8: if the first `k` uploads succeed and the `k`-th `upload_from_string`
call raises (`k` counted from zero, within range), the publish run stops
there with the exception escaping: the bucket has received exactly the
first `k` uploads of the failure-free run — earlier uploads remain, later
files are never uploaded, and nothing is rolled back. -/
theorem upload_failure_keeps_prior_uploads
    (temp_dir : List Char) (dags_directory : List SrcFile)
    (bucket_name : List Char) (ok : Nat → Bool) (k : Nat)
    (h1 : ∀ j, j < k → ok j = true) (h2 : ok k = false)
    (h3 : k < (_create_dags_list temp_dir dags_directory).dags.length) :
    upload_dags_to_composer temp_dir dags_directory bucket_name ok
      = ((upload_dags_to_composer temp_dir dags_directory bucket_name allOk).1.take k,
         true) := by
  show uploadLoop bucket_name temp_dir ok 0
      (_create_dags_list temp_dir dags_directory).dags = _
  rw [uploadLoop_first_failure bucket_name temp_dir ok
    (_create_dags_list temp_dir dags_directory).dags 0 k
    (fun j hj => by simpa using h1 j hj) (by simpa using h2) h3]
  rfl

theorem upload_failure_keeps_prior_uploads_witness :
    upload_dags_to_composer sampleTemp sampleDir2 sampleBucket (fun j => j == 0)
      = ((upload_dags_to_composer sampleTemp sampleDir2 sampleBucket allOk).1.take 1,
         true) :=
  upload_failure_keeps_prior_uploads sampleTemp sampleDir2 sampleBucket
    (fun j => j == 0) 1
    (fun j hj => by rw [Nat.lt_one_iff.mp hj]; rfl) (by decide) (by decide)

/-- C9: when the root request comes back 200, the verification step issues
exactly two HTTP GET requests — the service root and the
`/mnt/nfs/filestore` subpath, both with the `Authorization: Bearer` header —
and it passes exactly when the mounted-path response is also 200 and its
body contains the `%a-%b-%d-%H`-formatted date token. -/
theorem verify_issues_two_authenticated_gets
    (http : List Char → HttpResponse) (service_url auth_token : List Char)
    (dt : PyDatetime)
    (h200 : (http service_url).status = 200) :
    (test_end_to_end http service_url auth_token dt).1
      = [⟨service_url,
          [("Authorization".toList, "Bearer ".toList ++ auth_token)]⟩,
         ⟨service_url ++ "/mnt/nfs/filestore".toList,
          [("Authorization".toList, "Bearer ".toList ++ auth_token)]⟩]
    ∧ ((test_end_to_end http service_url auth_token dt).2 = true ↔
        ((http (service_url ++ "/mnt/nfs/filestore".toList)).status = 200
          ∧ containsSeq (http (service_url ++ "/mnt/nfs/filestore".toList)).body
              (dateToken dt) = true)) := by
  by_cases hs : (http (service_url ++ "/mnt/nfs/filestore".toList)).status = 200
  · have hs2 : (http (service_url ++
        ['/', 'm', 'n', 't', '/', 'n', 'f', 's', '/', 'f', 'i', 'l', 'e',
         's', 't', 'o', 'r', 'e'])).status = 200 := hs
    constructor
    · simp [test_end_to_end, h200, hs2]
    · simp [test_end_to_end, h200, hs2]
  · have hs2 : ¬ (http (service_url ++
        ['/', 'm', 'n', 't', '/', 'n', 'f', 's', '/', 'f', 'i', 'l', 'e',
         's', 't', 'o', 'r', 'e'])).status = 200 := hs
    constructor
    · simp [test_end_to_end, h200, hs2]
    · simp [test_end_to_end, h200, hs2]

theorem verify_issues_two_authenticated_gets_witness :
    (test_end_to_end sampleHttp "u".toList "tok".toList ⟨0, 1, 3, 7⟩).1
      = [⟨"u".toList,
          [("Authorization".toList, "Bearer ".toList ++ "tok".toList)]⟩,
         ⟨"u".toList ++ "/mnt/nfs/filestore".toList,
          [("Authorization".toList, "Bearer ".toList ++ "tok".toList)]⟩]
    ∧ ((test_end_to_end sampleHttp "u".toList "tok".toList ⟨0, 1, 3, 7⟩).2
          = true ↔
        ((sampleHttp ("u".toList ++ "/mnt/nfs/filestore".toList)).status = 200
          ∧ containsSeq
              (sampleHttp ("u".toList ++ "/mnt/nfs/filestore".toList)).body
              (dateToken ⟨0, 1, 3, 7⟩) = true)) :=
  verify_issues_two_authenticated_gets sampleHttp "u".toList "tok".toList
    ⟨0, 1, 3, 7⟩ (by decide)

/-- C10: whenever the underlying subprocess call succeeds, `gcloud_cli`
still never returns a value: the `json.loads` line always raises — `json`
is unresolved in the module — the bare `except` catches it, and the helper
raises `Exception` carrying the subprocess's captured stderr; so no run of
the wrapper, over any attempt sequence, ever produces a return value, and
a final successful attempt yields the stderr-carrying exception. -/
theorem gcloud_cli_never_returns {α : Type} (jsonLoads : List Char → Option α)
    (attempts : List ProcResult) (hne : attempts ≠ []) :
    (∀ v : α, gcloud_cli jsonLoads attempts ≠ Except.ok v)
    ∧ (∀ stdout stderr, attempts.getLast hne = ProcResult.ok stdout stderr →
        gcloud_cli jsonLoads attempts
          = Except.error (GcloudErr.exceptionStderr stderr)) := by
  have hg : gcloud_cli jsonLoads attempts
      = gcloud_cli_attempt jsonLoads (attempts.getLast hne) :=
    backoffOnException_all_error (gcloud_cli_attempt jsonLoads)
      (gcloud_cli_attempt_errors jsonLoads) attempts hne
  constructor
  · intro v hv
    obtain ⟨e, he⟩ := gcloud_cli_attempt_errors jsonLoads (attempts.getLast hne)
    rw [hg, he] at hv
    exact Except.noConfusion hv
  · intro stdout stderr hlast
    rw [hg, hlast]
    have hj : "json" ∉ moduleGlobalNames := by decide
    simp [gcloud_cli_attempt, hj]

theorem gcloud_cli_never_returns_witness :
    (∀ v : List Char,
      gcloud_cli (fun s => some s) [ProcResult.ok "x".toList "e".toList]
        ≠ Except.ok v)
    ∧ (∀ stdout stderr,
        [ProcResult.ok "x".toList "e".toList].getLast (by simp)
            = ProcResult.ok stdout stderr →
        gcloud_cli (fun s => some s) [ProcResult.ok "x".toList "e".toList]
          = Except.error (GcloudErr.exceptionStderr stderr)) :=
  gcloud_cli_never_returns (fun s => some s)
    [ProcResult.ok "x".toList "e".toList] (by simp)
